import Mathlib

/-!
Verification of `resultados_cacti/analise.py` (CACTI report analysis).

The Python source is shallowly embedded: text is `List Char`, Python floats
are modelled exactly by `ℚ`, the per-file dictionary record is the structure
`Metrics` with one `Option` field per dictionary key, a file is either
unopenable (every `open` raises, with a fixed message) or readable as a byte
sequence, and an uncaught Python exception is the `raised` constructor of
`PyResult`.  Character classes of the source's regular expressions
(`\d`, `str.isdigit`, `\s`, `str.strip`) are modelled on the ASCII/Latin
range actually exercised by CACTI reports: `\d` and `isdigit` as ASCII
digits, whitespace as the set below.
-/

namespace Cacti

/-- Decoded text, one Python character per entry. -/
abbrev Str := List Char

/-- Whitespace as recognised by Python's `str.strip` / regex `\s`
(ASCII and Latin-1 whitespace plus the common Unicode space code points). -/
def pyIsSpace (c : Char) : Bool :=
  (0x09 ≤ c.toNat && c.toNat ≤ 0x0D) || c.toNat = 0x20 ||
  (0x1C ≤ c.toNat && c.toNat ≤ 0x1F) || c.toNat = 0x85 || c.toNat = 0xA0 ||
  c.toNat = 0x1680 || (0x2000 ≤ c.toNat && c.toNat ≤ 0x200A) ||
  c.toNat = 0x2028 || c.toNat = 0x2029 || c.toNat = 0x202F ||
  c.toNat = 0x205F || c.toNat = 0x3000

/-- Python's `sub in s` substring test (case-sensitive, plain search). -/
def strContains (s sub : Str) : Bool :=
  match s with
  | [] => sub.isEmpty
  | _ :: cs => sub.isPrefixOf s || strContains cs sub

/-- Python's `s.split(sep)` for a one-character separator:
empty pieces are kept, the result is never empty. -/
def splitChar (sep : Char) : Str → List Str
  | [] => [[]]
  | c :: cs =>
    if c = sep then [] :: splitChar sep cs
    else
      match splitChar sep cs with
      | [] => [[c]]
      | r :: rs => (c :: r) :: rs

/-- Everything after the first occurrence of `sep` (empty if `sep` absent). -/
def afterFirst (sep : Str) : Str → Str
  | [] => []
  | c :: cs => if sep.isPrefixOf (c :: cs) then (c :: cs).drop sep.length else afterFirst sep cs

/-- Everything before the first occurrence of `sep` (all of it if absent). -/
def takeBefore (sep : Str) : Str → Str
  | [] => []
  | c :: cs => if sep.isPrefixOf (c :: cs) then [] else c :: takeBefore sep cs

/-- Python's `s.strip()`: drop leading and trailing whitespace. -/
def pyStrip (s : Str) : Str :=
  ((s.dropWhile pyIsSpace).reverse.dropWhile pyIsSpace).reverse

/-- Python's `s.replace(".", "", 1)`: remove the first dot, if any. -/
def removeFirstDot : Str → Str
  | [] => []
  | c :: cs => if c = '.' then cs else c :: removeFirstDot cs

/-- Python's `s.isdigit()` on the ASCII range: nonempty, all digits. -/
def pyIsdigitStr (s : Str) : Bool :=
  !s.isEmpty && s.all Char.isDigit

/-- Value of a digit string read in base 10. -/
def digitsToNat (s : Str) : Nat :=
  s.foldl (fun n c => n * 10 + (c.toNat - '0'.toNat)) 0

/-- Python's `float(s)` on the strings reachable from the source's regex
captures (digits and dots only); the result is modelled exactly in `ℚ`.
`float` succeeds on such a string iff it has at most one dot and at least
one digit; on any other character it fails, as every reachable call site
only ever passes digit-and-dot strings. -/
def pyFloatDD (s : Str) : Option ℚ :=
  if s.all (fun c => c.isDigit || c = '.') then
    match splitChar '.' s with
    | [w] => if w.isEmpty then none else some (mkRat (digitsToNat w) 1)
    | [w, f] =>
      if w.isEmpty && f.isEmpty then none
      else some (mkRat (digitsToNat w * 10 ^ f.length + digitsToNat f) (10 ^ f.length))
    | _ => none
  else none

/-- A Python dictionary value in the record: raw text or a float. -/
inductive Value where
  | str : Str → Value
  | num : ℚ → Value
deriving DecidableEq

/-- Python's `float(x)` applied to a record value. -/
def valFloat : Value → Option ℚ
  | .num q => some q
  | .str s => pyFloatDD s

/-- The source's numeric coercion of a single regex capture `g`:
`float(g) if g.replace(".", "", 1).isdigit() else g`, with the raw text kept
on conversion failure (the `except` arm). -/
def coerceValue (g : Str) : Value :=
  if pyIsdigitStr (removeFirstDot g) then
    match pyFloatDD g with
    | some q => .num q
    | none => .str g
  else .str g

/-!
### The source's regular expressions

Every pattern in `PATTERNS` is a sequence of: a literal, `\s*`, and one or
two greedy captures `(\d+)` / `([\d.]+)`.  Because no capture class contains
a whitespace character or the first character of the literal that follows
it, greedy maximal-munch matching at each start position, taking the
leftmost position that succeeds, coincides with Python `re.search`
semantics for these patterns.  `(\d+|0)` is equivalent to `(\d+)`.
-/

/-- One token of a source pattern: a literal, `\s*`, or a greedy capture
(`(\d+)` when `dot := false`, `([\d.]+)` when `dot := true`). -/
inductive Tok where
  | lit : Str → Tok
  | ws : Tok
  | cap : Bool → Tok

/-- Character class of a capture token. -/
def capClass (dot : Bool) (c : Char) : Bool :=
  c.isDigit || (dot && c = '.')

/-- Match a token sequence at the start of `s`; return the captures. -/
def tokMatch : List Tok → Str → Option (List Str)
  | [], _ => some []
  | .lit l :: ts, s => if l.isPrefixOf s then tokMatch ts (s.drop l.length) else none
  | .ws :: ts, s => tokMatch ts (s.dropWhile pyIsSpace)
  | .cap d :: ts, s =>
    let g := s.takeWhile (capClass d)
    if g.isEmpty then none
    else (tokMatch ts (s.drop g.length)).map (g :: ·)

/-- `re.search`: try every start position left to right. -/
def rsearch (ts : List Tok) : Str → Option (List Str)
  | [] => tokMatch ts []
  | c :: cs =>
    match tokMatch ts (c :: cs) with
    | some gs => some gs
    | none => rsearch ts cs

/-- The keys of the `PATTERNS` dictionary, in insertion order. -/
inductive MetricKey where
  | cache_size | block_size | associativity | access_time | cycle_time
  | read_energy | write_energy | leakage_power | area | sets | banks
deriving DecidableEq

/-- The regex associated with each key in `PATTERNS`. -/
def patOf : MetricKey → List Tok
  | .cache_size => [.lit "Cache size".toList, .ws, .lit ":".toList, .ws, .cap false]
  | .block_size => [.lit "Block size".toList, .ws, .lit ":".toList, .ws, .cap false]
  | .associativity => [.lit "Associativity".toList, .ws, .lit ":".toList, .ws, .cap false]
  | .access_time => [.lit "Access time (ns):".toList, .ws, .cap true]
  | .cycle_time => [.lit "Cycle time (ns):".toList, .ws, .cap true]
  | .read_energy => [.lit "Read Energy (nJ):".toList, .ws, .cap true]
  | .write_energy => [.lit "Write Energy (nJ):".toList, .ws, .cap true]
  | .leakage_power => [.lit "Leakage Power Closed Page (mW):".toList, .ws, .cap true]
  | .area => [.lit "Cache height x width (mm):".toList, .ws, .cap true, .lit " x ".toList, .cap true]
  | .sets => [.lit "Number of sets".toList, .ws, .lit ":".toList, .ws, .cap false]
  | .banks => [.lit "Cache banks (UCA)".toList, .ws, .lit ":".toList, .ws, .cap false]

/-- The `PATTERNS` dictionary as an ordered association list. -/
def PATTERNS : List (MetricKey × List Tok) :=
  [(.cache_size, patOf .cache_size), (.block_size, patOf .block_size),
   (.associativity, patOf .associativity), (.access_time, patOf .access_time),
   (.cycle_time, patOf .cycle_time), (.read_energy, patOf .read_energy),
   (.write_energy, patOf .write_energy), (.leakage_power, patOf .leakage_power),
   (.area, patOf .area), (.sets, patOf .sets), (.banks, patOf .banks)]

/-!
### The per-file record

The Python `metrics` dictionary has a fixed set of possible keys; the record
models each as an `Option` field (`none` = key absent). -/

/-- The per-file record built by `extract_metrics` (plus the `filename` key
added by `analyze_results`). -/
structure Metrics where
  status : Str
  reason : Option Str := none
  cache_size : Option Value := none
  block_size : Option Value := none
  associativity : Option Value := none
  access_time : Option Value := none
  cycle_time : Option Value := none
  read_energy : Option Value := none
  write_energy : Option Value := none
  leakage_power : Option Value := none
  sets : Option Value := none
  banks : Option Value := none
  height_mm : Option ℚ := none
  width_mm : Option ℚ := none
  area_mm2 : Option ℚ := none
  efficiency : Option ℚ := none
  filename : Option Str := none
deriving DecidableEq

/-- `metrics[key] = v` for the single-capture keys (the `area` key is never
assigned directly by the source; its branch writes the three area fields). -/
def setField (m : Metrics) (k : MetricKey) (v : Value) : Metrics :=
  match k with
  | .cache_size => { m with cache_size := some v }
  | .block_size => { m with block_size := some v }
  | .associativity => { m with associativity := some v }
  | .access_time => { m with access_time := some v }
  | .cycle_time => { m with cycle_time := some v }
  | .read_energy => { m with read_energy := some v }
  | .write_energy => { m with write_energy := some v }
  | .leakage_power => { m with leakage_power := some v }
  | .sets => { m with sets := some v }
  | .banks => { m with banks := some v }
  | .area => m

/-- Read the single-capture field named by `k` (`area` has no own field). -/
def metricField (m : Metrics) : MetricKey → Option Value
  | .cache_size => m.cache_size
  | .block_size => m.block_size
  | .associativity => m.associativity
  | .access_time => m.access_time
  | .cycle_time => m.cycle_time
  | .read_energy => m.read_energy
  | .write_energy => m.write_energy
  | .leakage_power => m.leakage_power
  | .sets => m.sets
  | .banks => m.banks
  | .area => none

/-- One iteration of the source's `for key, pattern in PATTERNS.items()`
loop.  The `area` arm mirrors the `try` block statement by statement:
`height_mm` is assigned before the second conversion is attempted, so a
`ValueError` on the second capture leaves `height_mm` set. -/
def applyPattern (content : Str) (m : Metrics) (k : MetricKey) (pat : List Tok) : Metrics :=
  match rsearch pat content with
  | none => m
  | some gs =>
    match k with
    | .area =>
      match pyFloatDD (gs.getD 0 []) with
      | none => m
      | some h =>
        let m1 := { m with height_mm := some h }
        match pyFloatDD (gs.getD 1 []) with
        | none => m1
        | some w => { m1 with width_mm := some w, area_mm2 := some (h * w) }
    | k => setField m k (coerceValue (gs.getD 0 []))

/-- `os.path.basename` on a POSIX path: the part after the last slash. -/
def basename (p : Str) : Str :=
  (splitChar '/' p).getLastD []

/-- Marker string `"CONFIGURAÇÃO INVÁLIDA"`. -/
def INVALID_MARKER : Str := "CONFIGURAÇÃO INVÁLIDA".toList

/-- Marker string `"Motivo:"`. -/
def MOTIVO : Str := "Motivo:".toList

/-- Marker string `"ERRO NA EXECUÇÃO"`. -/
def ERR1 : Str := "ERRO NA EXECUÇÃO".toList

/-- Marker string `"ERROR"`. -/
def ERR2 : Str := "ERROR".toList

/-- `content.split("Motivo:")[1]`: the chunk strictly between the first
occurrence of the marker and the following one (or the end). -/
def motivoSegment (content : Str) : Str :=
  takeBefore MOTIVO (afterFirst MOTIVO content)

/-- The filename-derived part of the record (source lines 56-63):
`filename.split('_')`, with `parts[1]`/`parts[2]`/`parts[3].split('.')[0]`
and the fallbacks `"2048"` / `"?"` / `"?"`. -/
def initMetrics (file_path : Str) : Metrics :=
  let parts := splitChar '_' (basename file_path)
  { status := "valid".toList
    cache_size := some (.str (if parts.length > 1 then parts.getD 1 [] else "2048".toList))
    block_size := some (.str (if parts.length > 2 then parts.getD 2 [] else "?".toList))
    associativity := some (.str (if parts.length > 3 then
      (splitChar '.' (parts.getD 3 [])).getD 0 [] else "?".toList)) }

/-- The derived-efficiency step (source lines 83-87): runs only when both
keys are present; any conversion failure or a zero divisor is swallowed by
the bare `except` (Python raises `ZeroDivisionError` on `x / 0.0`). -/
def efficiencyStep (m : Metrics) : Metrics :=
  match m.access_time, m.cycle_time with
  | some a, some c =>
    match valFloat a, valFloat c with
    | some qa, some qc => if qc = 0 then m else { m with efficiency := some (qa / qc) }
    | _, _ => m
  | _, _ => m

/-- The body of `extract_metrics` after a successful read (source lines
48-89): marker classification, filename-derived defaults, the pattern
loop, and the efficiency derivation. -/
def processContent (content : Str) (file_path : Str) : Metrics :=
  if strContains content INVALID_MARKER then
    { status := "invalid".toList
      reason := some (if strContains content MOTIVO then pyStrip (motivoSegment content)
                      else "Invalid configuration".toList) }
  else if strContains content ERR1 || strContains content ERR2 then
    { status := "error".toList, reason := some ("Runtime error".toList) }
  else
    efficiencyStep
      (List.foldl (fun m kp => applyPattern content m kp.1 kp.2) (initMetrics file_path) PATTERNS)

/-!
### The reader

A file is modelled as deterministically unopenable (every `open` raises an
`OSError` whose `str` is the stored message) or readable as a byte
sequence.  The encoding loop catches only `UnicodeDecodeError`, so an open
failure propagates out of `extract_metrics` uncaught. -/

/-- A byte. -/
abbrev Byte := Fin 256

/-- A file as seen by `open`: unopenable (the raised error's message) or a
byte sequence. -/
inductive PyFile where
  | unopenable : Str → PyFile
  | readable : List Byte → PyFile
deriving DecidableEq

/-- A Python call that either returns or raises an uncaught exception. -/
inductive PyResult (α : Type) where
  | ok : α → PyResult α
  | raised : Str → PyResult α
deriving DecidableEq

/-- Strict UTF-8 decoding (state machine: pending continuation count,
accumulated code point, overlong bound); rejects truncated sequences,
overlong forms, surrogates and out-of-range code points, as Python's
`utf-8` codec does. -/
def utf8Go : Option (Nat × Nat × Nat) → List Byte → Option Str
  | none, [] => some []
  | some _, [] => none
  | none, b :: rest =>
    if b.val < 0x80 then (utf8Go none rest).map (Char.ofNat b.val :: ·)
    else if 0xC2 ≤ b.val && b.val ≤ 0xDF then utf8Go (some (1, b.val - 0xC0, 0x80)) rest
    else if 0xE0 ≤ b.val && b.val ≤ 0xEF then utf8Go (some (2, b.val - 0xE0, 0x800)) rest
    else if 0xF0 ≤ b.val && b.val ≤ 0xF4 then utf8Go (some (3, b.val - 0xF0, 0x10000)) rest
    else none
  | some (need, acc, minCp), b :: rest =>
    if 0x80 ≤ b.val && b.val ≤ 0xBF then
      let acc2 := acc * 64 + (b.val - 0x80)
      if need ≤ 1 then
        if acc2 < minCp || (0xD800 ≤ acc2 && acc2 ≤ 0xDFFF) || 0x10FFFF < acc2 then none
        else (utf8Go none rest).map (Char.ofNat acc2 :: ·)
      else utf8Go (some (need - 1, acc2, minCp)) rest
    else none

/-- Python's `'utf-8'` codec (strict). -/
def utf8Decode (bytes : List Byte) : Option Str :=
  utf8Go none bytes

/-- Python's `'latin-1'` (= `'iso-8859-1'`) codec: total, one character per
byte. -/
def latin1Decode (bytes : List Byte) : Str :=
  bytes.map (fun b => Char.ofNat b.val)

/-- `'latin-1'` as a fallible decoder (it never actually fails). -/
def latin1DecodeOpt (bytes : List Byte) : Option Str :=
  some (latin1Decode bytes)

/-- The `cp1252` translation of one byte: the 0x80-0x9F row of the Windows
code page, five undefined bytes raising, all other bytes as in latin-1. -/
def cp1252Char (b : Nat) : Option Char :=
  if b = 0x80 then some (Char.ofNat 0x20AC)
  else if b = 0x82 then some (Char.ofNat 0x201A)
  else if b = 0x83 then some (Char.ofNat 0x0192)
  else if b = 0x84 then some (Char.ofNat 0x201E)
  else if b = 0x85 then some (Char.ofNat 0x2026)
  else if b = 0x86 then some (Char.ofNat 0x2020)
  else if b = 0x87 then some (Char.ofNat 0x2021)
  else if b = 0x88 then some (Char.ofNat 0x02C6)
  else if b = 0x89 then some (Char.ofNat 0x2030)
  else if b = 0x8A then some (Char.ofNat 0x0160)
  else if b = 0x8B then some (Char.ofNat 0x2039)
  else if b = 0x8C then some (Char.ofNat 0x0152)
  else if b = 0x8E then some (Char.ofNat 0x017D)
  else if b = 0x91 then some (Char.ofNat 0x2018)
  else if b = 0x92 then some (Char.ofNat 0x2019)
  else if b = 0x93 then some (Char.ofNat 0x201C)
  else if b = 0x94 then some (Char.ofNat 0x201D)
  else if b = 0x95 then some (Char.ofNat 0x2022)
  else if b = 0x96 then some (Char.ofNat 0x2013)
  else if b = 0x97 then some (Char.ofNat 0x2014)
  else if b = 0x98 then some (Char.ofNat 0x02DC)
  else if b = 0x99 then some (Char.ofNat 0x2122)
  else if b = 0x9A then some (Char.ofNat 0x0161)
  else if b = 0x9B then some (Char.ofNat 0x203A)
  else if b = 0x9C then some (Char.ofNat 0x0153)
  else if b = 0x9E then some (Char.ofNat 0x017E)
  else if b = 0x9F then some (Char.ofNat 0x0178)
  else if b = 0x81 || b = 0x8D || b = 0x8F || b = 0x90 || b = 0x9D then none
  else some (Char.ofNat b)

/-- Python's `'cp1252'` codec. -/
def cp1252Decode : List Byte → Option Str
  | [] => some []
  | b :: rest =>
    match cp1252Char b.val with
    | none => none
    | some c => (cp1252Decode rest).map (c :: ·)

/-- The source's encoding priority list `['utf-8', 'latin-1', 'cp1252',
'iso-8859-1']` as decoders. -/
def ENCODINGS : List (List Byte → Option Str) :=
  [utf8Decode, latin1DecodeOpt, cp1252Decode, latin1DecodeOpt]

/-- First decoder in the priority list that succeeds. -/
def firstSuccess : List (List Byte → Option Str) → List Byte → Option Str
  | [], _ => none
  | d :: ds, bytes =>
    match d bytes with
    | some s => some s
    | none => firstSuccess ds bytes

/-- The encoding loop's outcome on the bytes of a readable file. -/
def decodeFallback (bytes : List Byte) : Option Str :=
  firstSuccess ENCODINGS bytes

/-- UTF-8 decoding with `errors='ignore'` (undecodable byte sequences are
dropped and decoding resumes at the offending byte; a truncated trailing
sequence is dropped).  Fuel-driven so the recursion is structural; the
branch calling it is proved unreachable, so only the shape matters. -/
def utf8IgnoreGo (fuel : Nat) (st : Option (Nat × Nat × Nat)) (bytes : List Byte) : Str :=
  match fuel with
  | 0 => []
  | fuel + 1 =>
    match st, bytes with
    | _, [] => []
    | none, b :: rest =>
      if b.val < 0x80 then Char.ofNat b.val :: utf8IgnoreGo fuel none rest
      else if 0xC2 ≤ b.val && b.val ≤ 0xDF then utf8IgnoreGo fuel (some (1, b.val - 0xC0, 0x80)) rest
      else if 0xE0 ≤ b.val && b.val ≤ 0xEF then utf8IgnoreGo fuel (some (2, b.val - 0xE0, 0x800)) rest
      else if 0xF0 ≤ b.val && b.val ≤ 0xF4 then utf8IgnoreGo fuel (some (3, b.val - 0xF0, 0x10000)) rest
      else utf8IgnoreGo fuel none rest
    | some (need, acc, minCp), b :: rest =>
      if 0x80 ≤ b.val && b.val ≤ 0xBF then
        let acc2 := acc * 64 + (b.val - 0x80)
        if need ≤ 1 then
          if acc2 < minCp || (0xD800 ≤ acc2 && acc2 ≤ 0xDFFF) || 0x10FFFF < acc2 then
            utf8IgnoreGo fuel none rest
          else Char.ofNat acc2 :: utf8IgnoreGo fuel none rest
        else utf8IgnoreGo fuel (some (need - 1, acc2, minCp)) rest
      else utf8IgnoreGo fuel none (b :: rest)

/-- `open(file_path, 'r', encoding='utf-8', errors='ignore')` followed by a
full read. -/
def utf8DecodeIgnore (bytes : List Byte) : Str :=
  utf8IgnoreGo (2 * bytes.length + 1) none bytes

/-- The bytes of an ASCII text, for concrete test files. -/
def asciiBytes (s : Str) : List Byte :=
  s.map (fun c => Fin.ofNat c.toNat)

/-- The record returned by the source's `except Exception` arm of the
lossy retry: `{"status": "error", "reason": "Erro de leitura: ..."}`. -/
def readErrorRecord (e : Str) : Metrics :=
  { status := "error".toList, reason := some ("Erro de leitura: ".toList ++ e) }

/-- The encoding loop (source lines 30-38): each iteration opens the file
and decodes it, catching only `UnicodeDecodeError`; an open failure
(`OSError`) therefore propagates uncaught out of the loop's first
iteration.  Returns `content` (`none` when every encoding failed). -/
def tryEncodingsRead (file : PyFile) : PyResult (Option Str) :=
  match file with
  | .unopenable e => .raised e
  | .readable bytes => .ok (decodeFallback bytes)

/-- The lossy retry (source lines 40-46): `errors='ignore'` read, with the
`except Exception` arm turning an open failure into a read-error record. -/
def retryIgnore (file : PyFile) (file_path : Str) : PyResult Metrics :=
  match file with
  | .unopenable e => .ok (readErrorRecord e)
  | .readable bytes => .ok (processContent (utf8DecodeIgnore bytes) file_path)

/-- `extract_metrics(file_path)` (source lines 27-89), as a function of the
file's open/read behaviour and of the path. -/
def extract_metrics (file : PyFile) (file_path : Str) : PyResult Metrics :=
  match tryEncodingsRead file with
  | .raised e => .raised e
  | .ok (some content) => .ok (processContent content file_path)
  | .ok none => retryIgnore file file_path

/-!
### The aggregator (`analyze_results`)

The directory listing is a list of name/file pairs in `os.listdir` order;
the CSV artifact is the header row followed by one row per processed file,
each cell a `Value` (`"N/A"` as the string cell for an absent key). -/

/-- `RESULTS_DIR = "resultados_cacti"`. -/
def RESULTS_DIR : Str := "resultados_cacti".toList

/-- The processed-file extension `".out"`. -/
def OUT_EXT : Str := ".out".toList

/-- The fixed CSV schema (source lines 114-118), in order. -/
def FIELDNAMES : List Str :=
  ["filename".toList, "status".toList, "cache_size".toList, "block_size".toList,
   "associativity".toList, "access_time".toList, "cycle_time".toList,
   "read_energy".toList, "write_energy".toList, "leakage_power".toList,
   "area_mm2".toList, "efficiency".toList, "sets".toList, "banks".toList]

/-- `metrics.get(field)`: dictionary lookup by key name. -/
def csvLookup (m : Metrics) (f : Str) : Option Value :=
  if f = "filename".toList then m.filename.map .str
  else if f = "status".toList then some (.str m.status)
  else if f = "reason".toList then m.reason.map .str
  else if f = "cache_size".toList then m.cache_size
  else if f = "block_size".toList then m.block_size
  else if f = "associativity".toList then m.associativity
  else if f = "access_time".toList then m.access_time
  else if f = "cycle_time".toList then m.cycle_time
  else if f = "read_energy".toList then m.read_energy
  else if f = "write_energy".toList then m.write_energy
  else if f = "leakage_power".toList then m.leakage_power
  else if f = "height_mm".toList then m.height_mm.map .num
  else if f = "width_mm".toList then m.width_mm.map .num
  else if f = "area_mm2".toList then m.area_mm2.map .num
  else if f = "efficiency".toList then m.efficiency.map .num
  else if f = "sets".toList then m.sets
  else if f = "banks".toList then m.banks
  else none

/-- One CSV data row: `{field: metrics.get(field, "N/A") for field in
fieldnames}` in schema order. -/
def renderRow (m : Metrics) : List Value :=
  FIELDNAMES.map (fun f => (csvLookup m f).getD (.str "N/A".toList))

/-- The per-file loop of `analyze_results` (source lines 100-110): keep
`.out` files in listing order, run `extract_metrics`, add the `filename`
key; an exception raised by `extract_metrics` propagates and aborts the
whole run. -/
def processListing : List (Str × PyFile) → PyResult (List Metrics)
  | [] => .ok []
  | (name, file) :: rest =>
    if OUT_EXT.isSuffixOf name then
      match extract_metrics file (RESULTS_DIR ++ '/' :: name) with
      | .raised e => .raised e
      | .ok m =>
        match processListing rest with
        | .raised e => .raised e
        | .ok ms => .ok ({ m with filename := some name } :: ms)
    else processListing rest

/-- `analyze_results` (source lines 91-133) restricted to its CSV artifact:
the header row followed by the rendered record rows, in listing order. -/
def analyze_results (listing : List (Str × PyFile)) : PyResult (List (List Value)) :=
  match processListing listing with
  | .raised e => .raised e
  | .ok ms => .ok ((FIELDNAMES.map Value.str) :: ms.map renderRow)

/-!
### Closed form of the pattern loop

Each pattern key writes a field no other key writes, so the eleven loop
iterations compose into one simultaneous record update. -/

/-- Effect of one single-capture iteration on its own field. -/
def updOpt (r : Option (List Str)) (old : Option Value) : Option Value :=
  match r with
  | none => old
  | some gs => some (coerceValue (gs.getD 0 []))

/-- Effect of the `area` iteration on `height_mm`. -/
def areaH (r : Option (List Str)) (old : Option ℚ) : Option ℚ :=
  match r with
  | none => old
  | some gs =>
    match pyFloatDD (gs.getD 0 []) with
    | none => old
    | some h => some h

/-- Effect of the `area` iteration on `width_mm`. -/
def areaW (r : Option (List Str)) (old : Option ℚ) : Option ℚ :=
  match r with
  | none => old
  | some gs =>
    match pyFloatDD (gs.getD 0 []) with
    | none => old
    | some _ =>
      match pyFloatDD (gs.getD 1 []) with
      | none => old
      | some w => some w

/-- Effect of the `area` iteration on `area_mm2`. -/
def areaA (r : Option (List Str)) (old : Option ℚ) : Option ℚ :=
  match r with
  | none => old
  | some gs =>
    match pyFloatDD (gs.getD 0 []), pyFloatDD (gs.getD 1 []) with
    | some h, some w => some (h * w)
    | _, _ => old

/-- The pattern loop as one simultaneous update of `m0`. -/
def extractedRecord (c : Str) (m0 : Metrics) : Metrics :=
  { m0 with
    cache_size := updOpt (rsearch (patOf .cache_size) c) m0.cache_size
    block_size := updOpt (rsearch (patOf .block_size) c) m0.block_size
    associativity := updOpt (rsearch (patOf .associativity) c) m0.associativity
    access_time := updOpt (rsearch (patOf .access_time) c) m0.access_time
    cycle_time := updOpt (rsearch (patOf .cycle_time) c) m0.cycle_time
    read_energy := updOpt (rsearch (patOf .read_energy) c) m0.read_energy
    write_energy := updOpt (rsearch (patOf .write_energy) c) m0.write_energy
    leakage_power := updOpt (rsearch (patOf .leakage_power) c) m0.leakage_power
    height_mm := areaH (rsearch (patOf .area) c) m0.height_mm
    width_mm := areaW (rsearch (patOf .area) c) m0.width_mm
    area_mm2 := areaA (rsearch (patOf .area) c) m0.area_mm2
    sets := updOpt (rsearch (patOf .sets) c) m0.sets
    banks := updOpt (rsearch (patOf .banks) c) m0.banks }

theorem applyPattern_cache_size (c : Str) (m : Metrics) :
    applyPattern c m .cache_size (patOf .cache_size) =
      { m with cache_size := updOpt (rsearch (patOf .cache_size) c) m.cache_size } := by
  cases h : rsearch (patOf .cache_size) c <;> simp [applyPattern, setField, updOpt, h]

theorem applyPattern_block_size (c : Str) (m : Metrics) :
    applyPattern c m .block_size (patOf .block_size) =
      { m with block_size := updOpt (rsearch (patOf .block_size) c) m.block_size } := by
  cases h : rsearch (patOf .block_size) c <;> simp [applyPattern, setField, updOpt, h]

theorem applyPattern_associativity (c : Str) (m : Metrics) :
    applyPattern c m .associativity (patOf .associativity) =
      { m with associativity := updOpt (rsearch (patOf .associativity) c) m.associativity } := by
  cases h : rsearch (patOf .associativity) c <;> simp [applyPattern, setField, updOpt, h]

theorem applyPattern_access_time (c : Str) (m : Metrics) :
    applyPattern c m .access_time (patOf .access_time) =
      { m with access_time := updOpt (rsearch (patOf .access_time) c) m.access_time } := by
  cases h : rsearch (patOf .access_time) c <;> simp [applyPattern, setField, updOpt, h]

theorem applyPattern_cycle_time (c : Str) (m : Metrics) :
    applyPattern c m .cycle_time (patOf .cycle_time) =
      { m with cycle_time := updOpt (rsearch (patOf .cycle_time) c) m.cycle_time } := by
  cases h : rsearch (patOf .cycle_time) c <;> simp [applyPattern, setField, updOpt, h]

theorem applyPattern_read_energy (c : Str) (m : Metrics) :
    applyPattern c m .read_energy (patOf .read_energy) =
      { m with read_energy := updOpt (rsearch (patOf .read_energy) c) m.read_energy } := by
  cases h : rsearch (patOf .read_energy) c <;> simp [applyPattern, setField, updOpt, h]

theorem applyPattern_write_energy (c : Str) (m : Metrics) :
    applyPattern c m .write_energy (patOf .write_energy) =
      { m with write_energy := updOpt (rsearch (patOf .write_energy) c) m.write_energy } := by
  cases h : rsearch (patOf .write_energy) c <;> simp [applyPattern, setField, updOpt, h]

theorem applyPattern_leakage_power (c : Str) (m : Metrics) :
    applyPattern c m .leakage_power (patOf .leakage_power) =
      { m with leakage_power := updOpt (rsearch (patOf .leakage_power) c) m.leakage_power } := by
  cases h : rsearch (patOf .leakage_power) c <;> simp [applyPattern, setField, updOpt, h]

theorem applyPattern_sets (c : Str) (m : Metrics) :
    applyPattern c m .sets (patOf .sets) =
      { m with sets := updOpt (rsearch (patOf .sets) c) m.sets } := by
  cases h : rsearch (patOf .sets) c <;> simp [applyPattern, setField, updOpt, h]

theorem applyPattern_banks (c : Str) (m : Metrics) :
    applyPattern c m .banks (patOf .banks) =
      { m with banks := updOpt (rsearch (patOf .banks) c) m.banks } := by
  cases h : rsearch (patOf .banks) c <;> simp [applyPattern, setField, updOpt, h]

theorem applyPattern_area (c : Str) (m : Metrics) :
    applyPattern c m .area (patOf .area) =
      { m with
        height_mm := areaH (rsearch (patOf .area) c) m.height_mm
        width_mm := areaW (rsearch (patOf .area) c) m.width_mm
        area_mm2 := areaA (rsearch (patOf .area) c) m.area_mm2 } := by
  unfold applyPattern areaH areaW areaA
  cases h : rsearch (patOf .area) c with
  | none => rfl
  | some gs =>
    dsimp only
    cases h1 : pyFloatDD (gs.getD 0 []) with
    | none => rfl
    | some hq =>
      dsimp only
      cases h2 : pyFloatDD (gs.getD 1 []) with
      | none => rfl
      | some wq => rfl

/-- The loop over `PATTERNS` equals the simultaneous update. -/
theorem foldl_patterns_eq (c : Str) (m0 : Metrics) :
    List.foldl (fun m kp => applyPattern c m kp.1 kp.2) m0 PATTERNS = extractedRecord c m0 := by
  show List.foldl (fun m kp => applyPattern c m kp.1 kp.2) m0 PATTERNS = extractedRecord c m0
  simp only [PATTERNS, List.foldl_cons, List.foldl_nil,
    applyPattern_cache_size, applyPattern_block_size, applyPattern_associativity,
    applyPattern_access_time, applyPattern_cycle_time, applyPattern_read_energy,
    applyPattern_write_energy, applyPattern_leakage_power, applyPattern_area,
    applyPattern_sets, applyPattern_banks]
  rfl

theorem efficiencyStep_status (m : Metrics) : (efficiencyStep m).status = m.status := by
  unfold efficiencyStep
  repeat' split
  all_goals rfl

theorem efficiencyStep_reason (m : Metrics) : (efficiencyStep m).reason = m.reason := by
  unfold efficiencyStep
  repeat' split
  all_goals rfl

theorem efficiencyStep_height (m : Metrics) : (efficiencyStep m).height_mm = m.height_mm := by
  unfold efficiencyStep
  repeat' split
  all_goals rfl

theorem efficiencyStep_width (m : Metrics) : (efficiencyStep m).width_mm = m.width_mm := by
  unfold efficiencyStep
  repeat' split
  all_goals rfl

theorem efficiencyStep_area (m : Metrics) : (efficiencyStep m).area_mm2 = m.area_mm2 := by
  unfold efficiencyStep
  repeat' split
  all_goals rfl

theorem efficiencyStep_access (m : Metrics) : (efficiencyStep m).access_time = m.access_time := by
  unfold efficiencyStep
  repeat' split
  all_goals rfl

theorem efficiencyStep_cycle (m : Metrics) : (efficiencyStep m).cycle_time = m.cycle_time := by
  unfold efficiencyStep
  repeat' split
  all_goals rfl

/-- `efficiencyStep` preserves every single-capture metric field. -/
theorem efficiencyStep_metricField (m : Metrics) (k : MetricKey) :
    metricField (efficiencyStep m) k = metricField m k := by
  unfold efficiencyStep
  repeat' split
  all_goals cases k <;> rfl

/-- The `efficiency` field after `efficiencyStep`, when it was absent. -/
theorem efficiencyStep_efficiency (m : Metrics) (h : m.efficiency = none) :
    (efficiencyStep m).efficiency =
      match m.access_time, m.cycle_time with
      | some a, some c =>
        (match valFloat a, valFloat c with
         | some qa, some qc => if qc = 0 then none else some (qa / qc)
         | _, _ => none)
      | _, _ => none := by
  unfold efficiencyStep
  repeat' split
  all_goals simp_all

/-- Master lemma: on marker-free content `processContent` is the
efficiency step applied to the simultaneous pattern update of the
filename-derived record. -/
theorem processContent_valid (content file_path : Str)
    (h1 : strContains content INVALID_MARKER = false)
    (h2 : strContains content ERR1 = false)
    (h3 : strContains content ERR2 = false) :
    processContent content file_path =
      efficiencyStep (extractedRecord content (initMetrics file_path)) := by
  unfold processContent
  rw [h1, h2, h3]
  simp only [Bool.or_self, Bool.false_eq_true, if_false, foldl_patterns_eq]

/-- The two classifier branches of `processContent`. -/
theorem processContent_markers (content file_path : Str) :
    (strContains content INVALID_MARKER = true →
      processContent content file_path =
        { status := "invalid".toList
          reason := some (if strContains content MOTIVO then pyStrip (motivoSegment content)
                          else "Invalid configuration".toList) }) ∧
    (strContains content INVALID_MARKER = false →
      (strContains content ERR1 || strContains content ERR2) = true →
      processContent content file_path =
        { status := "error".toList, reason := some ("Runtime error".toList) }) := by
  constructor
  · intro h
    unfold processContent
    rw [h]
    simp
  · intro h he
    unfold processContent
    rw [h, he]
    simp

/-- `initMetrics` never sets the fields the pattern loop may add. -/
theorem initMetrics_base (file_path : Str) :
    (initMetrics file_path).status = "valid".toList ∧
    (initMetrics file_path).reason = none ∧
    (initMetrics file_path).access_time = none ∧
    (initMetrics file_path).cycle_time = none ∧
    (initMetrics file_path).height_mm = none ∧
    (initMetrics file_path).width_mm = none ∧
    (initMetrics file_path).area_mm2 = none ∧
    (initMetrics file_path).efficiency = none ∧
    (initMetrics file_path).filename = none := by
  unfold initMetrics
  exact ⟨rfl, rfl, rfl, rfl, rfl, rfl, rfl, rfl, rfl⟩

/-- The simultaneous update leaves `status`, `reason`, `efficiency` and
`filename` untouched. -/
theorem extractedRecord_preserves (c : Str) (m0 : Metrics) :
    (extractedRecord c m0).status = m0.status ∧ (extractedRecord c m0).reason = m0.reason ∧
    (extractedRecord c m0).efficiency = m0.efficiency ∧
    (extractedRecord c m0).filename = m0.filename := by
  unfold extractedRecord
  exact ⟨rfl, rfl, rfl, rfl⟩

/-- The encoding loop always succeeds, no later than the `'latin-1'`
attempt, because latin-1 decodes every byte sequence. -/
theorem decodeFallback_eq (bytes : List Byte) :
    decodeFallback bytes =
      match utf8Decode bytes with
      | some s => some s
      | none => some (latin1Decode bytes) := by
  show (match utf8Decode bytes with
        | some s => some s
        | none => firstSuccess [latin1DecodeOpt, cp1252Decode, latin1DecodeOpt] bytes) =
    match utf8Decode bytes with
    | some s => some s
    | none => some (latin1Decode bytes)
  cases utf8Decode bytes <;> rfl

/-- `extract_metrics` on a readable file always returns the processed
decoded content; the lossy retry is never taken. -/
theorem extract_readable_eq (bytes : List Byte) (file_path : Str) :
    extract_metrics (.readable bytes) file_path =
      .ok (processContent ((decodeFallback bytes).getD []) file_path) := by
  unfold extract_metrics tryEncodingsRead
  dsimp only
  rw [decodeFallback_eq]
  cases utf8Decode bytes <;> rfl

/-- `processContent` never yields the read-error record: the error branch
uses the fixed reason `"Runtime error"`, which is not of the form
`"Erro de leitura: ..."`. -/
theorem processContent_ne_readError (content file_path e : Str) :
    processContent content file_path ≠ readErrorRecord e := by
  intro hEq
  unfold processContent at hEq
  by_cases h1 : strContains content INVALID_MARKER
  · rw [if_pos h1] at hEq
    have := congrArg Metrics.status hEq
    simp [readErrorRecord] at this
  · rw [if_neg h1] at hEq
    by_cases h2 : (strContains content ERR1 || strContains content ERR2)
    · rw [if_pos h2] at hEq
      have := congrArg Metrics.reason hEq
      simp [readErrorRecord] at this
    · rw [if_neg h2] at hEq
      have hr := congrArg Metrics.reason hEq
      rw [efficiencyStep_reason, foldl_patterns_eq,
        (extractedRecord_preserves _ _).2.1, (initMetrics_base _).2.1] at hr
      simp [readErrorRecord] at hr

theorem extractedRecord_height (c : Str) (m0 : Metrics) :
    (extractedRecord c m0).height_mm = areaH (rsearch (patOf .area) c) m0.height_mm := rfl

theorem extractedRecord_width (c : Str) (m0 : Metrics) :
    (extractedRecord c m0).width_mm = areaW (rsearch (patOf .area) c) m0.width_mm := rfl

theorem extractedRecord_area (c : Str) (m0 : Metrics) :
    (extractedRecord c m0).area_mm2 = areaA (rsearch (patOf .area) c) m0.area_mm2 := rfl

theorem extractedRecord_access (c : Str) (m0 : Metrics) :
    (extractedRecord c m0).access_time = updOpt (rsearch (patOf .access_time) c) m0.access_time := rfl

theorem extractedRecord_cycle (c : Str) (m0 : Metrics) :
    (extractedRecord c m0).cycle_time = updOpt (rsearch (patOf .cycle_time) c) m0.cycle_time := rfl

/-- The simultaneous update writes each single-capture field from its own
pattern's search result. -/
theorem extractedRecord_metricField (c : Str) (m0 : Metrics) (k : MetricKey) (h : k ≠ .area) :
    metricField (extractedRecord c m0) k = updOpt (rsearch (patOf k) c) (metricField m0 k) := by
  cases k <;> first | rfl | exact absurd rfl h

/-- Status and reason of any record `processContent` produces. -/
theorem processContent_status_reason (content file_path : Str) :
    ((processContent content file_path).status = "valid".toList ∨
     (processContent content file_path).status = "invalid".toList ∨
     (processContent content file_path).status = "error".toList) ∧
    ((processContent content file_path).reason.isSome = true ↔
     (processContent content file_path).status ≠ "valid".toList) := by
  by_cases h1 : strContains content INVALID_MARKER
  · rw [(processContent_markers content file_path).1 h1]
    refine ⟨Or.inr (Or.inl rfl), ?_⟩
    simp
  · by_cases h2 : (strContains content ERR1 || strContains content ERR2)
    · rw [(processContent_markers content file_path).2 (by simpa using h1) h2]
      refine ⟨Or.inr (Or.inr rfl), ?_⟩
      simp
    · rw [processContent_valid content file_path (by simpa using h1)
        (by simpa using (Bool.or_eq_false_iff.mp (by simpa using h2)).1)
        (by simpa using (Bool.or_eq_false_iff.mp (by simpa using h2)).2)]
      rw [show (efficiencyStep (extractedRecord content (initMetrics file_path))).status =
            "valid".toList from by
          rw [efficiencyStep_status, (extractedRecord_preserves _ _).1, (initMetrics_base _).1],
        show (efficiencyStep (extractedRecord content (initMetrics file_path))).reason =
            none from by
          rw [efficiencyStep_reason, (extractedRecord_preserves _ _).2.1, (initMetrics_base _).2.1]]
      simp

/-!
### The claims
-/

/-- C3: classification is a case-sensitive plain substring search in a
fixed order: content containing the invalid-configuration marker yields
status `invalid` with the stripped text following `"Motivo:"` (the chunk up
to the next occurrence of the marker, exactly as `split("Motivo:")[1]`
computes it) when that marker is present, else the generic reason; content
without the invalid marker but containing either error marker yields
status `error` with the generic runtime-error reason; content with both an
invalid and an error marker is classified `invalid`. -/
theorem c3_classification (content file_path : Str) :
    (strContains content INVALID_MARKER = true →
      (processContent content file_path).status = "invalid".toList ∧
      (processContent content file_path).reason =
        some (if strContains content MOTIVO then pyStrip (motivoSegment content)
              else "Invalid configuration".toList)) ∧
    (strContains content INVALID_MARKER = false →
      (strContains content ERR1 || strContains content ERR2) = true →
      (processContent content file_path).status = "error".toList ∧
      (processContent content file_path).reason = some ("Runtime error".toList)) ∧
    (strContains content INVALID_MARKER = true →
      (strContains content ERR1 || strContains content ERR2) = true →
      (processContent content file_path).status = "invalid".toList) := by
  refine ⟨fun h => ?_, fun h he => ?_, fun h _ => ?_⟩
  · rw [(processContent_markers content file_path).1 h]
    exact ⟨rfl, rfl⟩
  · rw [(processContent_markers content file_path).2 h he]
    exact ⟨rfl, rfl⟩
  · rw [(processContent_markers content file_path).1 h]

/-- Witness for C3 at the spec's own scenario: content declaring an invalid
configuration with reason `excede área máxima`. -/
theorem c3_classification_witness :
    (processContent "CONFIGURAÇÃO INVÁLIDA\nMotivo: excede área máxima\n".toList
        "resultados_cacti/r_1_2_3.out".toList).status = "invalid".toList ∧
    (processContent "CONFIGURAÇÃO INVÁLIDA\nMotivo: excede área máxima\n".toList
        "resultados_cacti/r_1_2_3.out".toList).reason = some "excede área máxima".toList := by
  have h := (c3_classification "CONFIGURAÇÃO INVÁLIDA\nMotivo: excede área máxima\n".toList
    "resultados_cacti/r_1_2_3.out".toList).1 (by decide)
  refine ⟨h.1, ?_⟩
  rw [h.2]
  decide

/-- C7: every record `extract_metrics` returns has exactly one status,
drawn from valid/invalid/error, and carries a reason exactly when the
status is not `valid`. -/
theorem c7_status_reason (file : PyFile) (file_path : Str) (m : Metrics)
    (h : extract_metrics file file_path = .ok m) :
    (m.status = "valid".toList ∨ m.status = "invalid".toList ∨ m.status = "error".toList) ∧
    (m.reason.isSome = true ↔ m.status ≠ "valid".toList) := by
  cases file with
  | unopenable e => exact absurd h (by simp [extract_metrics, tryEncodingsRead])
  | readable bytes =>
    rw [extract_readable_eq] at h
    have hm : m = processContent ((decodeFallback bytes).getD []) file_path := by
      cases h
      rfl
    rw [hm]
    exact processContent_status_reason _ _

/-- Witness for C7: a plain ASCII report with no markers. -/
theorem c7_status_reason_witness :
    (({ status := "valid".toList, cache_size := some (.str "1".toList),
        block_size := some (.str "2".toList), associativity := some (.str "3".toList) }
        : Metrics).status = "valid".toList ∨
     ({ status := "valid".toList, cache_size := some (.str "1".toList),
        block_size := some (.str "2".toList), associativity := some (.str "3".toList) }
        : Metrics).status = "invalid".toList ∨
     ({ status := "valid".toList, cache_size := some (.str "1".toList),
        block_size := some (.str "2".toList), associativity := some (.str "3".toList) }
        : Metrics).status = "error".toList) ∧
    (({ status := "valid".toList, cache_size := some (.str "1".toList),
        block_size := some (.str "2".toList), associativity := some (.str "3".toList) }
        : Metrics).reason.isSome = true ↔
     ({ status := "valid".toList, cache_size := some (.str "1".toList),
        block_size := some (.str "2".toList), associativity := some (.str "3".toList) }
        : Metrics).status ≠ "valid".toList) :=
  c7_status_reason (.readable (asciiBytes "ok".toList))
    "resultados_cacti/a_1_2_3.out".toList _ (by decide)

/-- C10: for a file that opens, the encoding loop always succeeds no later
than the `'latin-1'` attempt; hence the lossy retry is never reached and
`extract_metrics` never returns the `Erro de leitura` read-error record
for such a file. -/
theorem c10_latin1_total (bytes : List Byte) (file_path : Str) :
    decodeFallback bytes =
      (match utf8Decode bytes with
       | some s => some s
       | none => some (latin1Decode bytes)) ∧
    (decodeFallback bytes).isSome = true ∧
    extract_metrics (.readable bytes) file_path =
      .ok (processContent ((decodeFallback bytes).getD []) file_path) ∧
    ∀ e, extract_metrics (.readable bytes) file_path ≠ .ok (readErrorRecord e) := by
  refine ⟨decodeFallback_eq bytes, ?_, extract_readable_eq bytes file_path, fun e hcontra => ?_⟩
  · rw [decodeFallback_eq]
    cases utf8Decode bytes <;> rfl
  · rw [extract_readable_eq] at hcontra
    have heq : processContent ((decodeFallback bytes).getD []) file_path = readErrorRecord e := by
      injection hcontra
    exact processContent_ne_readError _ file_path e heq

/-- Witness for C10 on latin-1-only bytes (0xE7 alone is invalid UTF-8,
so the loop falls through to latin-1). -/
theorem c10_latin1_total_witness :
    decodeFallback [(0xE7 : Byte)] =
      (match utf8Decode [(0xE7 : Byte)] with
       | some s => some s
       | none => some (latin1Decode [(0xE7 : Byte)])) ∧
    (decodeFallback [(0xE7 : Byte)]).isSome = true ∧
    extract_metrics (.readable [(0xE7 : Byte)]) "resultados_cacti/x_1_2_3.out".toList =
      .ok (processContent ((decodeFallback [(0xE7 : Byte)]).getD [])
        "resultados_cacti/x_1_2_3.out".toList) ∧
    ∀ e, extract_metrics (.readable [(0xE7 : Byte)]) "resultados_cacti/x_1_2_3.out".toList ≠
      .ok (readErrorRecord e) :=
  c10_latin1_total [(0xE7 : Byte)] "resultados_cacti/x_1_2_3.out".toList

/-- C2 (divergence witness): an unopenable `.out` file makes
`extract_metrics` raise the `OSError` uncaught (the encoding loop catches
only `UnicodeDecodeError`), so `analyze_results` aborts instead of
recording a `status=error` row and continuing. -/
theorem c2_open_failure_aborts :
    extract_metrics (.unopenable "Permission denied".toList)
        "resultados_cacti/locked_2048_64_8.out".toList =
      .raised "Permission denied".toList ∧
    analyze_results [("locked_2048_64_8.out".toList,
        .unopenable "Permission denied".toList)] =
      .raised "Permission denied".toList := by
  constructor
  · rfl
  · decide

/-- C1 as stated is false on the code: in
`Cache height x width (mm): 1.5 x 2..3` the first capture converts and is
assigned to `height_mm`, then the second capture `2..3` raises
`ValueError`, so the record keeps `height_mm` while `width_mm` and
`area_mm2` stay absent — neither all present nor all absent. -/
theorem c1_counterexample :
    (processContent "Cache height x width (mm): 1.5 x 2..3".toList
        "resultados_cacti/r_2048_64_8.out".toList).status = "valid".toList ∧
    (processContent "Cache height x width (mm): 1.5 x 2..3".toList
        "resultados_cacti/r_2048_64_8.out".toList).height_mm = some (mkRat 3 2) ∧
    (processContent "Cache height x width (mm): 1.5 x 2..3".toList
        "resultados_cacti/r_2048_64_8.out".toList).width_mm = none ∧
    (processContent "Cache height x width (mm): 1.5 x 2..3".toList
        "resultados_cacti/r_2048_64_8.out".toList).area_mm2 = none ∧
    ¬(((processContent "Cache height x width (mm): 1.5 x 2..3".toList
          "resultados_cacti/r_2048_64_8.out".toList).height_mm.isSome = true ∧
       (processContent "Cache height x width (mm): 1.5 x 2..3".toList
          "resultados_cacti/r_2048_64_8.out".toList).width_mm.isSome = true ∧
       (processContent "Cache height x width (mm): 1.5 x 2..3".toList
          "resultados_cacti/r_2048_64_8.out".toList).area_mm2.isSome = true) ∨
      ((processContent "Cache height x width (mm): 1.5 x 2..3".toList
          "resultados_cacti/r_2048_64_8.out".toList).height_mm = none ∧
       (processContent "Cache height x width (mm): 1.5 x 2..3".toList
          "resultados_cacti/r_2048_64_8.out".toList).width_mm = none ∧
       (processContent "Cache height x width (mm): 1.5 x 2..3".toList
          "resultados_cacti/r_2048_64_8.out".toList).area_mm2 = none)) := by
  decide

/-- C1 amended: on a valid record, if the area pattern does not match or
its first capture fails to convert, all three area fields are absent; if
both captures convert, all three are present with
`area_mm2 = height_mm * width_mm` (exactly, in the rational model); but if
only the second capture fails to convert, `height_mm` alone remains
present, because the source assigns it before attempting the second
conversion. -/
theorem c1_area_amended (content file_path : Str)
    (h1 : strContains content INVALID_MARKER = false)
    (h2 : strContains content ERR1 = false)
    (h3 : strContains content ERR2 = false) :
    (rsearch (patOf .area) content = none →
      (processContent content file_path).height_mm = none ∧
      (processContent content file_path).width_mm = none ∧
      (processContent content file_path).area_mm2 = none) ∧
    (∀ gs, rsearch (patOf .area) content = some gs →
      (pyFloatDD (gs.getD 0 []) = none →
        (processContent content file_path).height_mm = none ∧
        (processContent content file_path).width_mm = none ∧
        (processContent content file_path).area_mm2 = none) ∧
      (∀ hq, pyFloatDD (gs.getD 0 []) = some hq →
        (processContent content file_path).height_mm = some hq ∧
        (pyFloatDD (gs.getD 1 []) = none →
          (processContent content file_path).width_mm = none ∧
          (processContent content file_path).area_mm2 = none) ∧
        (∀ wq, pyFloatDD (gs.getD 1 []) = some wq →
          (processContent content file_path).width_mm = some wq ∧
          (processContent content file_path).area_mm2 = some (hq * wq)))) := by
  rw [processContent_valid content file_path h1 h2 h3]
  rw [efficiencyStep_height, efficiencyStep_width, efficiencyStep_area,
    extractedRecord_height, extractedRecord_width, extractedRecord_area,
    (initMetrics_base file_path).2.2.2.2.1, (initMetrics_base file_path).2.2.2.2.2.1,
    (initMetrics_base file_path).2.2.2.2.2.2.1]
  refine ⟨fun hr => ?_, fun gs hr => ⟨fun hg => ?_, fun hq hgq => ?_⟩⟩
  · rw [hr]
    exact ⟨rfl, rfl, rfl⟩
  · rw [hr]
    dsimp only [areaH, areaW, areaA]
    rw [hg]
    exact ⟨rfl, rfl, rfl⟩
  · rw [hr]
    dsimp only [areaH, areaW, areaA]
    rw [hgq]
    refine ⟨rfl, fun hg2 => ?_, fun wq hg2 => ?_⟩
    · rw [hg2]
      exact ⟨rfl, rfl⟩
    · rw [hg2]
      exact ⟨rfl, rfl⟩

/-- Witness for C1 (amended) at `Cache height x width (mm): 1.5 x 2.5`. -/
theorem c1_area_amended_witness :
    (processContent "Cache height x width (mm): 1.5 x 2.5".toList
        "resultados_cacti/r_2048_64_8.out".toList).height_mm = some (mkRat 3 2) ∧
    (processContent "Cache height x width (mm): 1.5 x 2.5".toList
        "resultados_cacti/r_2048_64_8.out".toList).width_mm = some (mkRat 5 2) ∧
    (processContent "Cache height x width (mm): 1.5 x 2.5".toList
        "resultados_cacti/r_2048_64_8.out".toList).area_mm2 =
      some (mkRat 3 2 * mkRat 5 2) := by
  have h := (((c1_area_amended "Cache height x width (mm): 1.5 x 2.5".toList
      "resultados_cacti/r_2048_64_8.out".toList (by decide) (by decide) (by decide)).2
      ["1.5".toList, "2.5".toList] (by decide)).2 (mkRat 3 2) (by decide))
  exact ⟨h.1, (h.2.2 (mkRat 5 2) (by decide)).1, (h.2.2 (mkRat 5 2) (by decide)).2⟩

/-- C4: on a valid record, `efficiency` is `access_time / cycle_time`
whenever both fields are present, both convert, and the divisor is
nonzero; it is absent whenever a field is absent, a conversion fails, or
the divisor is zero — never defaulted and never an error. -/
theorem c4_efficiency (content file_path : Str)
    (h1 : strContains content INVALID_MARKER = false)
    (h2 : strContains content ERR1 = false)
    (h3 : strContains content ERR2 = false) :
    (∀ a c qa qc, (processContent content file_path).access_time = some a →
      (processContent content file_path).cycle_time = some c →
      valFloat a = some qa → valFloat c = some qc → qc ≠ 0 →
      (processContent content file_path).efficiency = some (qa / qc)) ∧
    ((processContent content file_path).access_time = none ∨
      (processContent content file_path).cycle_time = none →
      (processContent content file_path).efficiency = none) ∧
    (∀ a c, (processContent content file_path).access_time = some a →
      (processContent content file_path).cycle_time = some c →
      (valFloat a = none ∨ valFloat c = none ∨ valFloat c = some 0) →
      (processContent content file_path).efficiency = none) := by
  rw [processContent_valid content file_path h1 h2 h3]
  have hnone : (extractedRecord content (initMetrics file_path)).efficiency = none := by
    rw [(extractedRecord_preserves _ _).2.2.1, (initMetrics_base _).2.2.2.2.2.2.2.1]
  rw [efficiencyStep_access, efficiencyStep_cycle,
    efficiencyStep_efficiency (extractedRecord content (initMetrics file_path)) hnone]
  refine ⟨fun a c qa qc ha hc hqa hqc hz => ?_, fun hor => ?_, fun a c ha hc hor => ?_⟩
  · rw [ha, hc]
    dsimp only
    rw [hqa, hqc]
    simp [hz]
  · rcases hor with h | h
    · rw [h]
    · rw [h]
      cases (extractedRecord content (initMetrics file_path)).access_time <;> rfl
  · rw [ha, hc]
    dsimp only
    rcases hor with h | h | h
    · rw [h]
    · rw [h]
      cases valFloat a <;> rfl
    · rw [h]
      cases hva : valFloat a <;> simp

/-- Witness for C4 at the spec's scenario: `Access time (ns): 1.25` and
`Cycle time (ns): 2.5` give efficiency `0.5`. -/
theorem c4_efficiency_witness :
    (processContent "Access time (ns): 1.25\nCycle time (ns): 2.5\n".toList
        "resultados_cacti/r_2048_64_8.out".toList).efficiency =
      some (mkRat 5 4 / mkRat 5 2) := by
  exact (c4_efficiency "Access time (ns): 1.25\nCycle time (ns): 2.5\n".toList
      "resultados_cacti/r_2048_64_8.out".toList (by decide) (by decide) (by decide)).1
    (.num (mkRat 5 4)) (.num (mkRat 5 2)) (mkRat 5 4) (mkRat 5 2)
    (by decide) (by decide) rfl rfl (by decide)

theorem efficiencyStep_cache (m : Metrics) : (efficiencyStep m).cache_size = m.cache_size := by
  unfold efficiencyStep
  repeat' split
  all_goals rfl

theorem efficiencyStep_block (m : Metrics) : (efficiencyStep m).block_size = m.block_size := by
  unfold efficiencyStep
  repeat' split
  all_goals rfl

theorem efficiencyStep_assoc (m : Metrics) :
    (efficiencyStep m).associativity = m.associativity := by
  unfold efficiencyStep
  repeat' split
  all_goals rfl

theorem extractedRecord_cache (c : Str) (m0 : Metrics) :
    (extractedRecord c m0).cache_size = updOpt (rsearch (patOf .cache_size) c) m0.cache_size := rfl

theorem extractedRecord_block (c : Str) (m0 : Metrics) :
    (extractedRecord c m0).block_size = updOpt (rsearch (patOf .block_size) c) m0.block_size := rfl

theorem extractedRecord_assoc (c : Str) (m0 : Metrics) :
    (extractedRecord c m0).associativity =
      updOpt (rsearch (patOf .associativity) c) m0.associativity := rfl

/-- C5: the filename is split on underscores; segments 2, 3 and 4 give
`cache_size`, `block_size` and `associativity` (extension stripped from the
fourth), with fallbacks `"2048"`, `"?"`, `"?"` — as the record's values
whenever the content does not override them; and the spec's two concrete
examples hold. -/
theorem c5_filename_params :
    (∀ content file_path : Str,
      strContains content INVALID_MARKER = false →
      strContains content ERR1 = false →
      strContains content ERR2 = false →
      rsearch (patOf .cache_size) content = none →
      rsearch (patOf .block_size) content = none →
      rsearch (patOf .associativity) content = none →
      (processContent content file_path).cache_size =
        some (.str (if (splitChar '_' (basename file_path)).length > 1
                    then (splitChar '_' (basename file_path)).getD 1 [] else "2048".toList)) ∧
      (processContent content file_path).block_size =
        some (.str (if (splitChar '_' (basename file_path)).length > 2
                    then (splitChar '_' (basename file_path)).getD 2 [] else "?".toList)) ∧
      (processContent content file_path).associativity =
        some (.str (if (splitChar '_' (basename file_path)).length > 3
                    then (splitChar '.' ((splitChar '_' (basename file_path)).getD 3 [])).getD 0 []
                    else "?".toList))) ∧
    ((processContent "ok".toList "resultados_cacti/result_4096_64_8.out".toList).cache_size =
        some (.str "4096".toList) ∧
     (processContent "ok".toList "resultados_cacti/result_4096_64_8.out".toList).block_size =
        some (.str "64".toList) ∧
     (processContent "ok".toList "resultados_cacti/result_4096_64_8.out".toList).associativity =
        some (.str "8".toList)) ∧
    ((processContent "ok".toList "resultados_cacti/result.out".toList).cache_size =
        some (.str "2048".toList) ∧
     (processContent "ok".toList "resultados_cacti/result.out".toList).block_size =
        some (.str "?".toList) ∧
     (processContent "ok".toList "resultados_cacti/result.out".toList).associativity =
        some (.str "?".toList)) := by
  refine ⟨fun content file_path h1 h2 h3 hc hb ha => ?_, by decide, by decide⟩
  rw [processContent_valid content file_path h1 h2 h3]
  rw [efficiencyStep_cache, efficiencyStep_block, efficiencyStep_assoc,
    extractedRecord_cache, extractedRecord_block, extractedRecord_assoc, hc, hb, ha]
  exact ⟨rfl, rfl, rfl⟩

/-- Witness for C5's general clause at `result_4096_64_8.out` with content
matching no parameter label. -/
theorem c5_filename_params_witness :
    (processContent "nothing here".toList
        "resultados_cacti/result_4096_64_8.out".toList).cache_size =
      some (.str (if (splitChar '_' (basename
          "resultados_cacti/result_4096_64_8.out".toList)).length > 1
        then (splitChar '_' (basename
          "resultados_cacti/result_4096_64_8.out".toList)).getD 1 []
        else "2048".toList)) := by
  exact (c5_filename_params.1 "nothing here".toList
    "resultados_cacti/result_4096_64_8.out".toList
    (by decide) (by decide) (by decide) (by decide) (by decide) (by decide)).1

/-- C9: a `Cache size`, `Block size` or `Associativity` label in the
content overwrites the filename-derived parameter with the coerced capture;
when the label is absent, the filename-derived default survives. -/
theorem c9_content_overrides (content file_path : Str) (k : MetricKey)
    (h1 : strContains content INVALID_MARKER = false)
    (h2 : strContains content ERR1 = false)
    (h3 : strContains content ERR2 = false)
    (hk : k = .cache_size ∨ k = .block_size ∨ k = .associativity) :
    (∀ gs, rsearch (patOf k) content = some gs →
      metricField (processContent content file_path) k = some (coerceValue (gs.getD 0 []))) ∧
    (rsearch (patOf k) content = none →
      metricField (processContent content file_path) k =
        metricField (initMetrics file_path) k) := by
  have hka : k ≠ .area := by rcases hk with rfl | rfl | rfl <;> decide
  rw [processContent_valid content file_path h1 h2 h3]
  rw [efficiencyStep_metricField, extractedRecord_metricField content (initMetrics file_path) k hka]
  exact ⟨fun gs hr => by rw [hr]; rfl, fun hr => by rw [hr]; rfl⟩

/-- Witness for C9: `Cache size : 4096` in the content overrides the
filename segment `1024`. -/
theorem c9_content_overrides_witness :
    metricField (processContent "Cache size: 4096".toList
        "resultados_cacti/r_1024_32_2.out".toList) .cache_size =
      some (.num (mkRat 4096 1)) := by
  have h := (c9_content_overrides "Cache size: 4096".toList
      "resultados_cacti/r_1024_32_2.out".toList .cache_size
      (by decide) (by decide) (by decide) (Or.inl rfl)).1 ["4096".toList] (by decide)
  rw [h]
  decide

/-- Splitting an all-digit string on the dot yields the string itself. -/
theorem splitChar_all_digits (s : Str) (h : s.all Char.isDigit = true) :
    splitChar '.' s = [s] := by
  induction s with
  | nil => rfl
  | cons c cs ih =>
    rw [List.all_cons, Bool.and_eq_true] at h
    have hc : ¬(c = '.') := fun he => by
      rw [he] at h
      exact absurd h.1 (by decide)
    unfold splitChar
    rw [if_neg hc, ih h.2]

/-- Weakening: all digits implies all digit-or-dot. -/
theorem all_digits_weaken (l : Str) (h : l.all Char.isDigit = true) :
    l.all (fun c => c.isDigit || c = '.') = true := by
  induction l with
  | nil => rfl
  | cons c cs ih =>
    rw [List.all_cons, Bool.and_eq_true] at h ⊢
    refine ⟨?_, ih h.2⟩
    show (c.isDigit || c = '.') = true
    rw [h.1]
    rfl

/-- If deleting the first dot leaves only digits, the string splits on the
dot into one or two all-digit pieces, and the deletion is their
concatenation. -/
theorem removeFirstDot_structure (g : Str)
    (h : (removeFirstDot g).all Char.isDigit = true) :
    (splitChar '.' g = [g] ∧ removeFirstDot g = g) ∨
    (∃ w f, splitChar '.' g = [w, f] ∧ removeFirstDot g = w ++ f) := by
  induction g with
  | nil => exact Or.inl ⟨rfl, rfl⟩
  | cons c cs ih =>
    by_cases hc : c = '.'
    · subst hc
      have hcs : cs.all Char.isDigit = true := by
        simpa [removeFirstDot] using h
      refine Or.inr ⟨[], cs, ?_, ?_⟩
      · show splitChar '.' ('.' :: cs) = [[], cs]
        unfold splitChar
        rw [if_pos rfl, splitChar_all_digits cs hcs]
      · simp [removeFirstDot]
    · have h' : (c :: removeFirstDot cs).all Char.isDigit = true := by
        simpa [removeFirstDot, hc] using h
      rw [List.all_cons, Bool.and_eq_true] at h'
      rcases ih h'.2 with ⟨hsp, hrm⟩ | ⟨w, f, hsp, hrm⟩
      · refine Or.inl ⟨?_, ?_⟩
        · unfold splitChar
          rw [if_neg hc, hsp]
        · unfold removeFirstDot
          rw [if_neg hc, hrm]
      · refine Or.inr ⟨c :: w, f, ?_, ?_⟩
        · unfold splitChar
          rw [if_neg hc, hsp]
        · unfold removeFirstDot
          rw [if_neg hc, hrm]
          rfl

/-- If deleting the first dot leaves only digits, the string itself is all
digits and dots. -/
theorem allDigitDot (g : Str) (h : (removeFirstDot g).all Char.isDigit = true) :
    g.all (fun c => c.isDigit || c = '.') = true := by
  induction g with
  | nil => rfl
  | cons c cs ih =>
    by_cases hc : c = '.'
    · subst hc
      have hcs : cs.all Char.isDigit = true := by
        simpa [removeFirstDot] using h
      rw [List.all_cons, Bool.and_eq_true]
      exact ⟨by decide, all_digits_weaken cs hcs⟩
    · have h' : (c :: removeFirstDot cs).all Char.isDigit = true := by
        simpa [removeFirstDot, hc] using h
      rw [List.all_cons, Bool.and_eq_true] at h'
      rw [List.all_cons, Bool.and_eq_true]
      refine ⟨?_, ih h'.2⟩
      show (c.isDigit || c = '.') = true
      rw [h'.1]
      rfl

/-- The source's coercion guard guarantees the conversion succeeds: if the
matched text with its first dot removed is a nonempty digit string, then
`float` of the text succeeds. -/
theorem pyFloatDD_of_isdigit (g : Str) (h : pyIsdigitStr (removeFirstDot g) = true) :
    ∃ q, pyFloatDD g = some q := by
  rw [pyIsdigitStr, Bool.and_eq_true] at h
  obtain ⟨hne, hdig⟩ := h
  have hAll := allDigitDot g hdig
  unfold pyFloatDD
  rw [hAll, if_pos rfl]
  rcases removeFirstDot_structure g hdig with ⟨hsp, hrm⟩ | ⟨w, f, hsp, hrm⟩
  · rw [hsp]
    have hge : g.isEmpty = false := by
      rw [← hrm]
      cases hrf : removeFirstDot g
      · rw [hrf] at hne
        exact absurd hne (by decide)
      · rfl
    dsimp only
    rw [hge]
    exact ⟨_, rfl⟩
  · rw [hsp]
    have hwf : (w.isEmpty && f.isEmpty) = false := by
      cases w with
      | cons _ _ => rfl
      | nil =>
        cases f with
        | cons _ _ => rfl
        | nil =>
          rw [hrm] at hne
          exact absurd hne (by decide)
    dsimp only
    rw [hwf]
    exact ⟨_, rfl⟩

/-- C8: for every matched single-capture metric value, the stored field is
the coerced capture; the coercion turns the text into its float value
exactly when the text with its first dot removed is a nonempty digit
string (and that conversion always succeeds), and stores the raw text
unchanged otherwise — the field is never dropped and no error is raised. -/
theorem c8_numeric_coercion (content file_path : Str) (k : MetricKey)
    (h1 : strContains content INVALID_MARKER = false)
    (h2 : strContains content ERR1 = false)
    (h3 : strContains content ERR2 = false)
    (hka : k ≠ .area) :
    (∀ gs, rsearch (patOf k) content = some gs →
      metricField (processContent content file_path) k = some (coerceValue (gs.getD 0 []))) ∧
    (∀ g : Str,
      (pyIsdigitStr (removeFirstDot g) = true →
        ∃ q, pyFloatDD g = some q ∧ coerceValue g = .num q) ∧
      (pyIsdigitStr (removeFirstDot g) = false → coerceValue g = .str g)) := by
  constructor
  · rw [processContent_valid content file_path h1 h2 h3]
    rw [efficiencyStep_metricField,
      extractedRecord_metricField content (initMetrics file_path) k hka]
    exact fun gs hr => by rw [hr]; rfl
  · intro g
    constructor
    · intro hcond
      obtain ⟨q, hq⟩ := pyFloatDD_of_isdigit g hcond
      refine ⟨q, hq, ?_⟩
      unfold coerceValue
      rw [hcond, if_pos rfl, hq]
    · intro hcond
      unfold coerceValue
      rw [hcond]
      rfl

/-- Witness for C8: `Number of sets: 64` stores the float 64 in `sets`. -/
theorem c8_numeric_coercion_witness :
    metricField (processContent "Number of sets: 64".toList
        "resultados_cacti/r_1_2_3.out".toList) .sets = some (.num (mkRat 64 1)) := by
  have h := (c8_numeric_coercion "Number of sets: 64".toList
      "resultados_cacti/r_1_2_3.out".toList .sets
      (by decide) (by decide) (by decide) (by decide)).1 ["64".toList] (by decide)
  rw [h]
  decide

/-- Bytes of a file (empty for an unopenable one; used only under a
readability hypothesis). -/
def bytesOf : PyFile → List Byte
  | .unopenable _ => []
  | .readable b => b

/-- A file that `open` succeeds on. -/
def PyFile.isReadable : PyFile → Bool
  | .unopenable _ => false
  | .readable _ => true

/-- The record a readable listing entry contributes to the table. -/
def rowRecord (e : Str × PyFile) : Metrics :=
  { processContent ((decodeFallback (bytesOf e.2)).getD [])
      (RESULTS_DIR ++ '/' :: e.1) with
    filename := some e.1 }

/-- On an all-readable listing, the per-file loop returns one record per
`.out` entry, in listing order. -/
theorem processListing_readable (listing : List (Str × PyFile))
    (hread : ∀ e ∈ listing, e.2.isReadable = true) :
    processListing listing =
      .ok ((listing.filter (fun e => OUT_EXT.isSuffixOf e.1)).map rowRecord) := by
  induction listing with
  | nil => rfl
  | cons e rest ih =>
    obtain ⟨name, file⟩ := e
    have hhead := hread _ (List.mem_cons_self _ _)
    have htail : ∀ x ∈ rest, x.2.isReadable = true :=
      fun x hx => hread x (List.mem_cons_of_mem _ hx)
    cases file with
    | unopenable msg => exact absurd hhead (by simp [PyFile.isReadable])
    | readable bytes =>
      unfold processListing
      by_cases hs : OUT_EXT.isSuffixOf name = true
      · rw [if_pos hs, extract_readable_eq, ih htail]
        dsimp only
        rw [List.filter_cons]
        dsimp only
        rw [hs]
        rfl
      · rw [if_neg hs, ih htail, List.filter_cons]
        dsimp only
        rw [Bool.not_eq_true] at hs
        rw [hs]
        rfl

/-- C6: on an all-readable listing, the CSV artifact is the 14-column
header row followed by one row per `.out` file in listing order; every row
has all 14 columns in schema order, each cell being the record's value or
the `"N/A"` placeholder (a nonempty string) when the key is absent. -/
theorem c6_csv_table (listing : List (Str × PyFile))
    (hread : ∀ e ∈ listing, e.2.isReadable = true) :
    analyze_results listing =
      .ok ((FIELDNAMES.map Value.str) ::
        (listing.filter (fun e => OUT_EXT.isSuffixOf e.1)).map
          (fun e => renderRow (rowRecord e))) ∧
    FIELDNAMES.length = 14 ∧
    (∀ m : Metrics, (renderRow m).length = 14) ∧
    (∀ m : Metrics, ∀ i : Nat, i < 14 →
      (renderRow m).getD i (.str []) =
        (csvLookup m (FIELDNAMES.getD i [])).getD (.str "N/A".toList)) ∧
    ¬("N/A".toList = ([] : Str)) := by
  refine ⟨?_, rfl, fun m => rfl, fun m i hi => ?_, by decide⟩
  · unfold analyze_results
    rw [processListing_readable listing hread]
    dsimp only
    rw [List.map_map]
    rfl
  · interval_cases i <;> rfl

/-- Witness for C6 on a three-entry listing (two `.out` files, one skipped
`.txt` file). -/
theorem c6_csv_table_witness :
    analyze_results
        [("a_1_2_4.out".toList, .readable (asciiBytes "ok".toList)),
         ("notes.txt".toList, .readable (asciiBytes "x".toList)),
         ("b.out".toList, .readable (asciiBytes "ERROR here".toList))] =
      .ok ((FIELDNAMES.map Value.str) ::
        ([("a_1_2_4.out".toList, .readable (asciiBytes "ok".toList)),
          ("notes.txt".toList, .readable (asciiBytes "x".toList)),
          ("b.out".toList, .readable (asciiBytes "ERROR here".toList))].filter
            (fun e => OUT_EXT.isSuffixOf e.1)).map
          (fun e => renderRow (rowRecord e))) :=
  (c6_csv_table
    [("a_1_2_4.out".toList, .readable (asciiBytes "ok".toList)),
     ("notes.txt".toList, .readable (asciiBytes "x".toList)),
     ("b.out".toList, .readable (asciiBytes "ERROR here".toList))] (by decide)).1

end Cacti
